import Mathlib

/-!
Shallow embedding of `app/models.py` from the stock-analysis-portfolio
repository: a declarative schema module (SQLModel) for a portfolio-tracking
application.  Persistent entities and the non-persistent create/update
shapes are embedded as Lean structures; the validation constraints declared
on each field (required-ness, maximum string length, the email regex,
decimal-place counts, default values) are embedded as explicit constructor
functions and schema tables, translated field by field from the source.
-/

namespace Models

/-- `AlertType` enum from the source: PRICE_ABOVE, PRICE_BELOW, PERCENT_CHANGE. -/
inductive AlertType where
  | price_above
  | price_below
  | percent_change
deriving DecidableEq

/-- `AlertStatus` enum from the source: ACTIVE, TRIGGERED, DISABLED. -/
inductive AlertStatus where
  | active
  | triggered
  | disabled
deriving DecidableEq

/-- Fixed-point decimal value: `mant / 10 ^ scale`.  Embeds Python's
`Decimal` with an explicit integer mantissa and decimal-place count,
i.e. exact fixed-point (not floating-point) semantics. -/
structure Decimal where
  mant : Int
  scale : Nat
deriving DecidableEq

/-- The exact rational value denoted by a fixed-point decimal. -/
def Decimal.val (x : Decimal) : ℚ := (x.mant : ℚ) / (10 : ℚ) ^ x.scale

/-- Character class `[a-zA-Z0-9_.+-]` of the email regex (local part). -/
def localChar (c : Char) : Bool :=
  c.isAlpha || c.isDigit || c = '_' || c = '.' || c = '+' || c = '-'

/-- Character class `[a-zA-Z0-9-]` of the email regex (domain label). -/
def domainChar (c : Char) : Bool :=
  c.isAlpha || c.isDigit || c = '-'

/-- Character class `[a-zA-Z0-9-.]` of the email regex (tail after the
first dot of the domain). -/
def tailChar (c : Char) : Bool :=
  c.isAlpha || c.isDigit || c = '-' || c = '.'

/-- Split a character list at the first occurrence of `c`; `none` when `c`
does not occur. -/
def splitAtChar (c : Char) : List Char → Option (List Char × List Char)
  | [] => none
  | x :: xs =>
    if x = c then some ([], xs)
    else
      match splitAtChar c xs with
      | some (a, b) => some (x :: a, b)
      | none => none

/-- Decision procedure for the email pattern
`^[a-zA-Z0-9_.+-]+@[a-zA-Z0-9-]+\.[a-zA-Z0-9-.]+$` declared on
`User.email`.  A string matches exactly when it decomposes as
`local ++ "@" ++ dom ++ "." ++ tail` with `local` a nonempty run of
`localChar`s, `dom` a nonempty run of `domainChar`s and `tail` a nonempty
run of `tailChar`s; since none of the three classes contains `@` and the
domain class contains no dot, the split is necessarily at the first `@`
and the first following dot. -/
def emailMatches (s : String) : Bool :=
  match splitAtChar '@' s.toList with
  | none => false
  | some (loc, rest) =>
    !loc.isEmpty && loc.all localChar &&
      match splitAtChar '.' rest with
      | none => false
      | some (dom, tl) =>
        !dom.isEmpty && dom.all domainChar && !tl.isEmpty && tl.all tailChar

/-- Persistent `User` entity (table `users`).  Timestamps are opaque
naturals; relationship attributes are not columns and are omitted. -/
structure User where
  id : Option Int
  username : String
  email : String
  full_name : String
  is_active : Bool
  created_at : Nat
  updated_at : Nat
deriving DecidableEq

/-- Keyword arguments for constructing a `User`: every column may be
supplied or omitted, mirroring Python keyword arguments. -/
structure UserArgs where
  id : Option (Option Int)
  username : Option String
  email : Option String
  full_name : Option String
  is_active : Option Bool
  created_at : Option Nat
  updated_at : Option Nat
deriving DecidableEq

/-- Validating constructor for `User`, following the declarations in the
source: `username`, `email`, `full_name` are required (no default);
`username` max length 50, `email` max length 255 and the regex pattern,
`full_name` max length 100; `id` defaults to `None`, `is_active` to
`True`, the timestamps to the current time (`now`).  Returns `none` when
validation fails. -/
def mkUser (now : Nat) (a : UserArgs) : Option User :=
  match a.username, a.email, a.full_name with
  | some un, some em, some fn =>
    if un.length ≤ 50 && em.length ≤ 255 && emailMatches em && fn.length ≤ 100 then
      some ⟨a.id.getD none, un, em, fn, a.is_active.getD true,
            a.created_at.getD now, a.updated_at.getD now⟩
    else none
  | _, _, _ => none

/-- Persistent `Stock` entity (table `stocks`). -/
structure Stock where
  id : Option Int
  symbol : String
  name : String
  exchange : String
  sector : String
  industry : String
  market_cap : Option Decimal
  current_price : Decimal
  previous_close : Decimal
  day_change : Decimal
  day_change_percent : Decimal
  volume : Int
  avg_volume : Int
  pe_ratio : Option Decimal
  dividend_yield : Option Decimal
  fifty_two_week_high : Option Decimal
  fifty_two_week_low : Option Decimal
  last_updated : Nat
  created_at : Nat
deriving DecidableEq

/-- Persistent `Portfolio` entity (table `portfolios`). -/
structure Portfolio where
  id : Option Int
  name : String
  description : String
  user_id : Int
  total_value : Decimal
  total_cost : Decimal
  total_gain_loss : Decimal
  total_gain_loss_percent : Decimal
  is_default : Bool
  created_at : Nat
  updated_at : Nat
deriving DecidableEq

/-- Persistent `Transaction` entity (table `transactions`).  The source
declares `transaction_type: str = Field(max_length=10)` with a comment
`# 'BUY' or 'SELL'`: the field is a free string of length at most 10. -/
structure Transaction where
  id : Option Int
  holding_id : Int
  transaction_type : String
  quantity : Decimal
  price : Decimal
  total_amount : Decimal
  fees : Decimal
  notes : String
  transaction_date : Nat
  created_at : Nat
deriving DecidableEq

/-- Persistent `PriceAlert` entity (table `price_alerts`). -/
structure PriceAlert where
  id : Option Int
  user_id : Int
  stock_id : Int
  alert_type : AlertType
  target_price : Option Decimal
  target_percentage : Option Decimal
  status : AlertStatus
  message : String
  triggered_at : Option Nat
  triggered_price : Option Decimal
  created_at : Nat
  updated_at : Nat
deriving DecidableEq

/-- Persistent `WatchList` entity (table `watch_lists`). -/
structure WatchList where
  id : Option Int
  user_id : Int
  name : String
  description : String
  stock_symbols : List String
  is_default : Bool
  created_at : Nat
  updated_at : Nat
deriving DecidableEq

/-- Keyword arguments for constructing a `Transaction`. -/
structure TransactionArgs where
  id : Option (Option Int)
  holding_id : Option Int
  transaction_type : Option String
  quantity : Option Decimal
  price : Option Decimal
  total_amount : Option Decimal
  fees : Option Decimal
  notes : Option String
  transaction_date : Option Nat
  created_at : Option Nat
deriving DecidableEq

/-- Validating constructor for `Transaction`: `holding_id`,
`transaction_type`, `quantity`, `price`, `total_amount` are required;
`transaction_type` has max length 10 and `notes` max length 500 as their
only declared constraints; `fees` defaults to `Decimal("0")`, `notes` to
the empty string, the dates to `now`. -/
def mkTransaction (now : Nat) (a : TransactionArgs) : Option Transaction :=
  match a.holding_id, a.transaction_type, a.quantity, a.price, a.total_amount with
  | some hid, some ty, some q, some p, some ta =>
    if ty.length ≤ 10 && (a.notes.getD "").length ≤ 500 then
      some ⟨a.id.getD none, hid, ty, q, p, ta, a.fees.getD ⟨0, 0⟩,
            a.notes.getD "", a.transaction_date.getD now, a.created_at.getD now⟩
    else none
  | _, _, _, _, _ => none

/-- Keyword arguments for constructing a `PriceAlert`. -/
structure PriceAlertArgs where
  id : Option (Option Int)
  user_id : Option Int
  stock_id : Option Int
  alert_type : Option AlertType
  target_price : Option (Option Decimal)
  target_percentage : Option (Option Decimal)
  status : Option AlertStatus
  message : Option String
  triggered_at : Option (Option Nat)
  triggered_price : Option (Option Decimal)
  created_at : Option Nat
  updated_at : Option Nat
deriving DecidableEq

/-- Validating constructor for `PriceAlert`: `user_id` and `stock_id` are
required; `alert_type` defaults to `AlertType.PRICE_ABOVE`, `status` to
`AlertStatus.ACTIVE`, `target_price`/`target_percentage`/`triggered_at`/
`triggered_price` to `None`, `message` (max length 500) to the empty
string, the timestamps to `now`. -/
def mkPriceAlert (now : Nat) (a : PriceAlertArgs) : Option PriceAlert :=
  match a.user_id, a.stock_id with
  | some uid, some sid =>
    if (a.message.getD "").length ≤ 500 then
      some ⟨a.id.getD none, uid, sid, a.alert_type.getD AlertType.price_above,
            a.target_price.getD none, a.target_percentage.getD none,
            a.status.getD AlertStatus.active, a.message.getD "",
            a.triggered_at.getD none, a.triggered_price.getD none,
            a.created_at.getD now, a.updated_at.getD now⟩
    else none
  | _, _ => none

/-- Non-persistent `UserCreate` shape: `username` (max 50), `email`
(max 255, no regex), `full_name` (max 100), all required. -/
structure UserCreate where
  username : String
  email : String
  full_name : String
deriving DecidableEq

/-- Keyword arguments for constructing a `UserCreate`. -/
structure UserCreateArgs where
  username : Option String
  email : Option String
  full_name : Option String
deriving DecidableEq

/-- Validating constructor for `UserCreate`.  The source declares only
maximum lengths on its three fields; in particular `email` carries no
regex pattern here, unlike the persistent `User.email` column. -/
def mkUserCreate (a : UserCreateArgs) : Option UserCreate :=
  match a.username, a.email, a.full_name with
  | some un, some em, some fn =>
    if un.length ≤ 50 && em.length ≤ 255 && fn.length ≤ 100 then
      some ⟨un, em, fn⟩
    else none
  | _, _, _ => none

/-- Non-persistent `StockPriceHistoryCreate` shape. -/
structure StockPriceHistoryCreate where
  stock_id : Int
  date : Nat
  open_price : Decimal
  high_price : Decimal
  low_price : Decimal
  close_price : Decimal
  volume : Int
  adjusted_close : Option Decimal
deriving DecidableEq

/-- Keyword arguments for constructing a `StockPriceHistoryCreate`. -/
structure StockPriceHistoryCreateArgs where
  stock_id : Option Int
  date : Option Nat
  open_price : Option Decimal
  high_price : Option Decimal
  low_price : Option Decimal
  close_price : Option Decimal
  volume : Option Int
  adjusted_close : Option (Option Decimal)
deriving DecidableEq

/-- Validating constructor for `StockPriceHistoryCreate`: `stock_id`,
`date` and the four OHLC prices are required; `volume` defaults to 0 and
`adjusted_close` to `None`. -/
def mkStockPriceHistoryCreate (a : StockPriceHistoryCreateArgs) :
    Option StockPriceHistoryCreate :=
  match a.stock_id, a.date, a.open_price, a.high_price, a.low_price, a.close_price with
  | some sid, some d, some o, some h, some l, some c =>
    some ⟨sid, d, o, h, l, c, a.volume.getD 0, a.adjusted_close.getD none⟩
  | _, _, _, _, _, _ => none

/-- Non-persistent `UserUpdate` shape: every field optional, `None`
meaning absent. -/
structure UserUpdate where
  username : Option String
  email : Option String
  full_name : Option String
  is_active : Option Bool
deriving DecidableEq

/-- Non-persistent `StockUpdate` shape. -/
structure StockUpdate where
  name : Option String
  sector : Option String
  industry : Option String
  current_price : Option Decimal
  market_cap : Option Decimal
deriving DecidableEq

/-- Non-persistent `PortfolioUpdate` shape. -/
structure PortfolioUpdate where
  name : Option String
  description : Option String
  is_default : Option Bool
deriving DecidableEq

/-- Non-persistent `PriceAlertUpdate` shape. -/
structure PriceAlertUpdate where
  alert_type : Option AlertType
  target_price : Option Decimal
  target_percentage : Option Decimal
  status : Option AlertStatus
  message : Option String
deriving DecidableEq

/-- Non-persistent `WatchListUpdate` shape. -/
structure WatchListUpdate where
  name : Option String
  description : Option String
  stock_symbols : Option (List String)
  is_default : Option Bool
deriving DecidableEq

/-- Modelled from the spec: the partial-update merge for `UserUpdate`
(the merge procedure itself is not in `app/models.py`): each field
present in the update replaces the stored value, each absent field leaves
the stored value unchanged. -/
def applyUserUpdate (u : UserUpdate) (r : User) : User :=
  { r with
    username := u.username.getD r.username
    email := u.email.getD r.email
    full_name := u.full_name.getD r.full_name
    is_active := u.is_active.getD r.is_active }

/-- Modelled from the spec: the partial-update merge for `StockUpdate`.
`market_cap` and the stored column are both optional; a present update
value replaces the stored optional value. -/
def applyStockUpdate (u : StockUpdate) (r : Stock) : Stock :=
  { r with
    name := u.name.getD r.name
    sector := u.sector.getD r.sector
    industry := u.industry.getD r.industry
    current_price := u.current_price.getD r.current_price
    market_cap := match u.market_cap with
      | some v => some v
      | none => r.market_cap }

/-- Modelled from the spec: the partial-update merge for
`PortfolioUpdate`. -/
def applyPortfolioUpdate (u : PortfolioUpdate) (r : Portfolio) : Portfolio :=
  { r with
    name := u.name.getD r.name
    description := u.description.getD r.description
    is_default := u.is_default.getD r.is_default }

/-- Modelled from the spec: the partial-update merge for
`PriceAlertUpdate`. -/
def applyPriceAlertUpdate (u : PriceAlertUpdate) (r : PriceAlert) : PriceAlert :=
  { r with
    alert_type := u.alert_type.getD r.alert_type
    target_price := match u.target_price with
      | some v => some v
      | none => r.target_price
    target_percentage := match u.target_percentage with
      | some v => some v
      | none => r.target_percentage
    status := u.status.getD r.status
    message := u.message.getD r.message }

/-- Modelled from the spec: the partial-update merge for
`WatchListUpdate`. -/
def applyWatchListUpdate (u : WatchListUpdate) (r : WatchList) : WatchList :=
  { r with
    name := u.name.getD r.name
    description := u.description.getD r.description
    stock_symbols := u.stock_symbols.getD r.stock_symbols
    is_default := u.is_default.getD r.is_default }

/-- The `UserUpdate` with every field absent. -/
def emptyUserUpdate : UserUpdate := ⟨none, none, none, none⟩

/-- The `StockUpdate` with every field absent. -/
def emptyStockUpdate : StockUpdate := ⟨none, none, none, none, none⟩

/-- The `PortfolioUpdate` with every field absent. -/
def emptyPortfolioUpdate : PortfolioUpdate := ⟨none, none, none⟩

/-- The `PriceAlertUpdate` with every field absent. -/
def emptyPriceAlertUpdate : PriceAlertUpdate := ⟨none, none, none, none, none⟩

/-- The `WatchListUpdate` with every field absent. -/
def emptyWatchListUpdate : WatchListUpdate := ⟨none, none, none, none⟩

/-- The field names occurring in the schema module, as an enumeration. -/
inductive FName where
  | id
  | username
  | email
  | full_name
  | is_active
  | created_at
  | updated_at
  | symbol
  | name
  | exchange
  | sector
  | industry
  | market_cap
  | current_price
  | previous_close
  | day_change
  | day_change_percent
  | volume
  | avg_volume
  | pe_ratio
  | dividend_yield
  | fifty_two_week_high
  | fifty_two_week_low
  | last_updated
  | description
  | user_id
  | total_value
  | total_cost
  | total_gain_loss
  | total_gain_loss_percent
  | is_default
  | portfolio_id
  | stock_id
  | quantity
  | average_cost
  | current_value
  | gain_loss
  | gain_loss_percent
  | holding_id
  | transaction_type
  | price
  | total_amount
  | fees
  | notes
  | transaction_date
  | date
  | open_price
  | high_price
  | low_price
  | close_price
  | adjusted_close
  | alert_type
  | target_price
  | target_percentage
  | status
  | message
  | triggered_at
  | triggered_price
  | stock_symbols
deriving DecidableEq

/-- One declared field of a schema shape: its name and whether it is
required, i.e. declared without any default (`required = true` exactly
when the source declaration has neither `default=` nor `default_factory=`
nor an `Optional`-with-`default=None` primary key). -/
structure FieldSpec where
  fname : FName
  required : Bool
deriving DecidableEq

/-- A required field (no default in the source). -/
def req (f : FName) : FieldSpec := ⟨f, true⟩

/-- An optional field (a default value or default factory in the source). -/
def opt (f : FName) : FieldSpec := ⟨f, false⟩

/-- A schema shape: its class name and its declared columns/fields in
source order (relationship attributes are not fields). -/
structure ShapeSpec where
  sname : String
  fields : List FieldSpec
deriving DecidableEq

/-- Declared fields of `User`. -/
def userShape : ShapeSpec :=
  ⟨"User", [opt .id, req .username, req .email, req .full_name,
            opt .is_active, opt .created_at, opt .updated_at]⟩

/-- Declared fields of `Stock`. -/
def stockShape : ShapeSpec :=
  ⟨"Stock", [opt .id, req .symbol, req .name, req .exchange, opt .sector,
             opt .industry, opt .market_cap, opt .current_price,
             opt .previous_close, opt .day_change, opt .day_change_percent,
             opt .volume, opt .avg_volume, opt .pe_ratio, opt .dividend_yield,
             opt .fifty_two_week_high, opt .fifty_two_week_low,
             opt .last_updated, opt .created_at]⟩

/-- Declared fields of `Portfolio`. -/
def portfolioShape : ShapeSpec :=
  ⟨"Portfolio", [opt .id, req .name, opt .description, req .user_id,
                 opt .total_value, opt .total_cost, opt .total_gain_loss,
                 opt .total_gain_loss_percent, opt .is_default,
                 opt .created_at, opt .updated_at]⟩

/-- Declared fields of `PortfolioHolding`. -/
def portfolioHoldingShape : ShapeSpec :=
  ⟨"PortfolioHolding", [opt .id, req .portfolio_id, req .stock_id,
                        opt .quantity, opt .average_cost, opt .total_cost,
                        opt .current_value, opt .gain_loss,
                        opt .gain_loss_percent, opt .created_at,
                        opt .updated_at]⟩

/-- Declared fields of `Transaction`. -/
def transactionShape : ShapeSpec :=
  ⟨"Transaction", [opt .id, req .holding_id, req .transaction_type,
                   req .quantity, req .price, req .total_amount, opt .fees,
                   opt .notes, opt .transaction_date, opt .created_at]⟩

/-- Declared fields of `StockPriceHistory`. -/
def stockPriceHistoryShape : ShapeSpec :=
  ⟨"StockPriceHistory", [opt .id, req .stock_id, req .date, req .open_price,
                         req .high_price, req .low_price, req .close_price,
                         opt .volume, opt .adjusted_close, opt .created_at]⟩

/-- Declared fields of `PriceAlert`. -/
def priceAlertShape : ShapeSpec :=
  ⟨"PriceAlert", [opt .id, req .user_id, req .stock_id, opt .alert_type,
                  opt .target_price, opt .target_percentage, opt .status,
                  opt .message, opt .triggered_at, opt .triggered_price,
                  opt .created_at, opt .updated_at]⟩

/-- Declared fields of `WatchList`. -/
def watchListShape : ShapeSpec :=
  ⟨"WatchList", [opt .id, req .user_id, req .name, opt .description,
                 opt .stock_symbols, opt .is_default, opt .created_at,
                 opt .updated_at]⟩

/-- Declared fields of `MarketIndex`. -/
def marketIndexShape : ShapeSpec :=
  ⟨"MarketIndex", [opt .id, req .symbol, req .name, opt .current_value,
                   opt .previous_close, opt .day_change,
                   opt .day_change_percent, opt .last_updated,
                   opt .created_at]⟩

/-- Declared fields of `UserCreate`. -/
def userCreateShape : ShapeSpec :=
  ⟨"UserCreate", [req .username, req .email, req .full_name]⟩

/-- Declared fields of `StockCreate`. -/
def stockCreateShape : ShapeSpec :=
  ⟨"StockCreate", [req .symbol, req .name, req .exchange, opt .sector,
                   opt .industry]⟩

/-- Declared fields of `PortfolioCreate`. -/
def portfolioCreateShape : ShapeSpec :=
  ⟨"PortfolioCreate", [req .name, opt .description, req .user_id,
                       opt .is_default]⟩

/-- Declared fields of `TransactionCreate`. -/
def transactionCreateShape : ShapeSpec :=
  ⟨"TransactionCreate", [req .holding_id, req .transaction_type,
                         req .quantity, req .price, opt .fees, opt .notes,
                         opt .transaction_date]⟩

/-- Declared fields of `PriceAlertCreate`. -/
def priceAlertCreateShape : ShapeSpec :=
  ⟨"PriceAlertCreate", [req .user_id, req .stock_id, opt .alert_type,
                        opt .target_price, opt .target_percentage,
                        opt .message]⟩

/-- Declared fields of `WatchListCreate`. -/
def watchListCreateShape : ShapeSpec :=
  ⟨"WatchListCreate", [req .user_id, req .name, opt .description,
                       opt .stock_symbols, opt .is_default]⟩

/-- Declared fields of `StockPriceHistoryCreate`. -/
def stockPriceHistoryCreateShape : ShapeSpec :=
  ⟨"StockPriceHistoryCreate", [req .stock_id, req .date, req .open_price,
                               req .high_price, req .low_price,
                               req .close_price, opt .volume,
                               opt .adjusted_close]⟩

/-- All constructible entities: the persistent models and the Create
shapes. -/
def constructShapes : List ShapeSpec :=
  [userShape, stockShape, portfolioShape, portfolioHoldingShape,
   transactionShape, stockPriceHistoryShape, priceAlertShape,
   watchListShape, marketIndexShape, userCreateShape, stockCreateShape,
   portfolioCreateShape, transactionCreateShape, priceAlertCreateShape,
   watchListCreateShape, stockPriceHistoryCreateShape]

/-- The Create shapes only. -/
def createShapes : List ShapeSpec :=
  [userCreateShape, stockCreateShape, portfolioCreateShape,
   transactionCreateShape, priceAlertCreateShape, watchListCreateShape,
   stockPriceHistoryCreateShape]

/-- Server-assigned fields per the spec: the primary key, the creation
timestamp, and the computed-total fields. -/
def serverAssigned : List FName :=
  [.id, .created_at, .total_value, .total_cost, .total_gain_loss,
   .total_gain_loss_percent, .total_amount, .current_value, .gain_loss,
   .gain_loss_percent]

/-- Modelled from the spec: construction of a shape from a set of supplied
keyword arguments succeeds only if every required (non-defaulted) field is
supplied (`present` tells which field names the caller passed); the
validation behavior itself lives in the schema library, not in
`app/models.py`. -/
def constructOk (s : ShapeSpec) (present : FName → Bool) : Bool :=
  s.fields.all fun g => !g.required || present g.fname

/-- Modelled from the spec: storing a decimal value into a column declared
with `decimal_places = d` re-expresses it at scale `d` (the storage layer
itself is not in `app/models.py`).  A value already expressible in `d`
decimal places is rescaled exactly; a finer value is truncated toward
zero. -/
def storeDecimal (d : Nat) (x : Decimal) : Decimal :=
  if x.scale ≤ d then ⟨x.mant * (10 : Int) ^ (d - x.scale), d⟩
  else ⟨x.mant.tdiv ((10 : Int) ^ (x.scale - d)), d⟩

/-- Decimal-places declaration table: every `Decimal` column of every
persistent entity with its declared `decimal_places` count, copied from
the source. -/
def decimalPlaces : List (String × FName × Nat) :=
  [("Stock", .market_cap, 2), ("Stock", .current_price, 4),
   ("Stock", .previous_close, 4), ("Stock", .day_change, 4),
   ("Stock", .day_change_percent, 4), ("Stock", .pe_ratio, 2),
   ("Stock", .dividend_yield, 4), ("Stock", .fifty_two_week_high, 4),
   ("Stock", .fifty_two_week_low, 4),
   ("Portfolio", .total_value, 2), ("Portfolio", .total_cost, 2),
   ("Portfolio", .total_gain_loss, 2),
   ("Portfolio", .total_gain_loss_percent, 4),
   ("PortfolioHolding", .quantity, 8),
   ("PortfolioHolding", .average_cost, 4),
   ("PortfolioHolding", .total_cost, 2),
   ("PortfolioHolding", .current_value, 2),
   ("PortfolioHolding", .gain_loss, 2),
   ("PortfolioHolding", .gain_loss_percent, 4),
   ("Transaction", .quantity, 8), ("Transaction", .price, 4),
   ("Transaction", .total_amount, 2), ("Transaction", .fees, 2),
   ("StockPriceHistory", .open_price, 4),
   ("StockPriceHistory", .high_price, 4),
   ("StockPriceHistory", .low_price, 4),
   ("StockPriceHistory", .close_price, 4),
   ("StockPriceHistory", .adjusted_close, 4),
   ("PriceAlert", .target_price, 4), ("PriceAlert", .target_percentage, 2),
   ("PriceAlert", .triggered_price, 4),
   ("MarketIndex", .current_value, 4), ("MarketIndex", .previous_close, 4),
   ("MarketIndex", .day_change, 4), ("MarketIndex", .day_change_percent, 4)]

/-- Keyword arguments supplying a `Transaction` whose `transaction_type`
is the string `"HOLD"` and whose required fields are all present. -/
def holdArgs : TransactionArgs :=
  ⟨none, some 1, some "HOLD", some ⟨100000000, 8⟩, some ⟨1500000, 4⟩,
   some ⟨15000, 2⟩, none, none, none, none⟩

/-- A stored `PriceAlert` whose status is TRIGGERED. -/
def trigAlert : PriceAlert :=
  ⟨none, 1, 2, AlertType.price_above, some ⟨15000, 2⟩, none,
   AlertStatus.triggered, "", some 5, some ⟨15100, 2⟩, 0, 0⟩

/-- A `PriceAlertUpdate` that supplies only `status = ACTIVE`. -/
def reactivate : PriceAlertUpdate :=
  ⟨none, none, none, some AlertStatus.active, none⟩

/-- Keyword arguments for a `User` whose email does not match the email
pattern. -/
def badUserArgs : UserArgs :=
  ⟨none, some "alice", some "notanemail", some "Alice", none, none, none⟩

/-- Keyword arguments for the PriceAlert of the spec's example:
`alert_type = PRICE_ABOVE`, `target_price = 150.00`, no status. -/
def c6Args : PriceAlertArgs :=
  ⟨none, some 1, some 2, some AlertType.price_above,
   some (some ⟨15000, 2⟩), none, none, none, none, none, none, none⟩

/-- Keyword arguments for a `User` constructed without `is_active`. -/
def bobArgs : UserArgs :=
  ⟨none, some "bob", some "bob@example.com", some "Bob", none, none, none⟩

/-- The `User` resulting from `mkUser 0 bobArgs`. -/
def bobUser : User :=
  ⟨none, "bob", "bob@example.com", "Bob", true, 0, 0⟩

/-- A sample stored `User`, used to instantiate the update-merge frame
theorem. -/
def sampleUser : User :=
  ⟨some 7, "carol", "carol@example.com", "Carol", true, 3, 4⟩

/-- C1, counterexample: constructing a `Transaction` with
`transaction_type = "HOLD"` succeeds, and the constructed transaction's
type is `"HOLD"`, which is neither `"BUY"` nor `"SELL"` — so the claim
that such a construction fails validation is false on the code. -/
theorem C1_counterexample :
    Option.map Transaction.transaction_type (mkTransaction 0 holdArgs)
      = some "HOLD"
    ∧ "HOLD" ≠ "BUY" ∧ "HOLD" ≠ "SELL" := by
  refine ⟨rfl, ?_, ?_⟩ <;> decide

/-- C1, amended: `transaction_type` is a free string whose only declared
constraint is a maximum length of 10; any such string, `"HOLD"` included,
is accepted at construction and stored unchanged.  The BUY/SELL
restriction exists only as a source comment and is not enforced. -/
theorem C1_amended_thm (now : Nat) (hid : Int) (ty : String)
    (q p ta : Decimal) (h : ty.length ≤ 10) :
    Option.map Transaction.transaction_type
      (mkTransaction now
        ⟨none, some hid, some ty, some q, some p, some ta, none, none,
         none, none⟩) = some ty := by
  simp [mkTransaction, h]

/-- C1, witness for the amended theorem at `ty = "HOLD"`. -/
theorem C1_witness :
    Option.map Transaction.transaction_type
      (mkTransaction 0
        ⟨none, some 1, some "HOLD", some ⟨100000000, 8⟩, some ⟨1500000, 4⟩,
         some ⟨15000, 2⟩, none, none, none, none⟩) = some "HOLD" :=
  C1_amended_thm 0 1 "HOLD" ⟨100000000, 8⟩ ⟨1500000, 4⟩ ⟨15000, 2⟩
    (by decide)

/-- C2, counterexample: applying a `PriceAlertUpdate` carrying
`status = ACTIVE` to a stored alert whose status is TRIGGERED moves the
alert out of TRIGGERED (to ACTIVE, which is neither TRIGGERED nor
DISABLED) — so TRIGGERED is not terminal under updates. -/
theorem C2_counterexample :
    trigAlert.status = AlertStatus.triggered
    ∧ (applyPriceAlertUpdate reactivate trigAlert).status = AlertStatus.active
    ∧ AlertStatus.active ≠ AlertStatus.triggered
    ∧ AlertStatus.active ≠ AlertStatus.disabled := by
  refine ⟨rfl, rfl, ?_, ?_⟩ <;> decide

/-- C2, amended: the module places no restriction on status transitions:
applying a `PriceAlertUpdate` sets the stored status to the update's
status when present — whatever value it is — and leaves it unchanged when
absent.  In particular TRIGGERED and DISABLED are not terminal. -/
theorem C2_amended_thm :
    ∀ (r : PriceAlert) (u : PriceAlertUpdate),
      (applyPriceAlertUpdate u r).status = u.status.getD r.status :=
  fun _ _ => rfl

/-- C6: constructing a `PriceAlert` with `alert_type = PRICE_ABOVE` and
`target_price = 150.00` and no status succeeds and defaults the status to
ACTIVE. -/
theorem C6_default_status_active :
    Option.map PriceAlert.status (mkPriceAlert 0 c6Args)
      = some AlertStatus.active
    ∧ Option.map PriceAlert.alert_type (mkPriceAlert 0 c6Args)
      = some AlertType.price_above
    ∧ Option.map PriceAlert.target_price (mkPriceAlert 0 c6Args)
      = some (some ⟨15000, 2⟩) := by
  refine ⟨rfl, rfl, rfl⟩

/-- C8: no Create shape declares a server-assigned field: neither `id`,
nor `created_at`, nor any of the computed-total fields appears among the
fields of any of the seven `*Create` shapes. -/
theorem C8_create_omits_server_fields :
    ∀ s ∈ createShapes, ∀ b ∈ serverAssigned,
      b ∉ s.fields.map FieldSpec.fname := by decide

/-- C8, witness: `UserCreate` has no `id` field. -/
theorem C8_witness :
    FName.id ∉ userCreateShape.fields.map FieldSpec.fname :=
  C8_create_omits_server_fields userCreateShape (by decide) FName.id
    (by decide)

/-- C3: constructing a `User` with an email that does not match the
declared pattern `^[a-zA-Z0-9_.+-]+@[a-zA-Z0-9-]+\.[a-zA-Z0-9-.]+$` fails
validation, whatever the other arguments are. -/
theorem C3_email_regex_enforced (now : Nat) (a : UserArgs) (em : String)
    (he : a.email = some em) (hm : emailMatches em = false) :
    mkUser now a = none := by
  cases hu : a.username with
  | none => simp [mkUser, hu]
  | some un =>
    cases hf : a.full_name with
    | none => simp [mkUser, hu, he, hf]
    | some fn => simp [mkUser, hu, he, hf, hm]

/-- C3, witness: constructing a `User` with email `"notanemail"` fails. -/
theorem C3_witness : mkUser 0 badUserArgs = none :=
  C3_email_regex_enforced 0 badUserArgs "notanemail" rfl (by decide)

/-- C7: for every constructible entity — persistent model or Create
shape — leaving any required (non-defaulted) field unsupplied makes
construction fail validation. -/
theorem C7_required_field_needed :
    ∀ s ∈ constructShapes, ∀ f ∈ s.fields, f.required = true →
      ∀ present : FName → Bool, present f.fname = false →
        constructOk s present = false := by
  intro s _ f hf hreq present hp
  cases hall : constructOk s present with
  | false => rfl
  | true =>
    exfalso
    unfold constructOk at hall
    have h2 := List.all_eq_true.mp hall f hf
    rw [hreq, hp] at h2
    simp at h2

/-- C7, witness: constructing a `Transaction` with no arguments at all
fails, `transaction_type` being required. -/
theorem C7_witness : constructOk transactionShape (fun _ => false) = false :=
  C7_required_field_needed transactionShape (by decide)
    (req FName.transaction_type) (by decide) rfl (fun _ => false) rfl

/-- C9: `UserCreate` does not enforce the email pattern: any email string
of length at most 255 is accepted (given valid username and full name),
and stored verbatim. -/
theorem C9_usercreate_no_email_regex (un em fn : String)
    (h1 : un.length ≤ 50) (h2 : em.length ≤ 255) (h3 : fn.length ≤ 100) :
    mkUserCreate ⟨some un, some em, some fn⟩ = some ⟨un, em, fn⟩ := by
  simp [mkUserCreate, h1, h2, h3]

/-- C9, witness: `"notanemail"` does not match the email pattern, yet
`UserCreate` accepts it. -/
theorem C9_witness :
    mkUserCreate ⟨some "alice", some "notanemail", some "Alice"⟩
      = some ⟨"alice", "notanemail", "Alice"⟩
    ∧ emailMatches "notanemail" = false :=
  ⟨C9_usercreate_no_email_regex "alice" "notanemail" "Alice" (by decide)
      (by decide) (by decide),
   by decide⟩

/-- C10: a `User` constructed without `is_active` has `is_active = true`,
and `UserCreate` exposes no `is_active` field, so users created through
the Create shape start active. -/
theorem C10_default_active :
    (∀ (now : Nat) (a : UserArgs) (u : User), a.is_active = none →
        mkUser now a = some u → u.is_active = true)
    ∧ FName.is_active ∉ userCreateShape.fields.map FieldSpec.fname := by
  constructor
  · intro now a u hna hmk
    cases hu : a.username with
    | none => simp [mkUser, hu] at hmk
    | some un =>
      cases he : a.email with
      | none => simp [mkUser, hu, he] at hmk
      | some em =>
        cases hf : a.full_name with
        | none => simp [mkUser, hu, he, hf] at hmk
        | some fn =>
          simp only [mkUser, hu, he, hf] at hmk
          split at hmk
          · cases hmk
            simp [hna]
          · cases hmk
  · decide

/-- C10, witness: `mkUser` at concrete arguments with `is_active` absent
yields a user that is active. -/
theorem C10_witness : bobUser.is_active = true :=
  C10_default_active.1 0 bobArgs bobUser rfl (by decide)

/-- C4: merging an Update with all fields absent onto a stored record
changes nothing, for every update shape of the module; and, per field,
an absent update field leaves the corresponding stored value unchanged
while fields outside the update shape are never touched (spelled out for
the two cited shapes, `UserUpdate` and `PriceAlertUpdate`). -/
theorem C4_update_frame :
    (∀ r : User, applyUserUpdate emptyUserUpdate r = r)
    ∧ (∀ r : Stock, applyStockUpdate emptyStockUpdate r = r)
    ∧ (∀ r : Portfolio, applyPortfolioUpdate emptyPortfolioUpdate r = r)
    ∧ (∀ r : PriceAlert, applyPriceAlertUpdate emptyPriceAlertUpdate r = r)
    ∧ (∀ r : WatchList, applyWatchListUpdate emptyWatchListUpdate r = r)
    ∧ (∀ (r : User) (u : UserUpdate),
        (u.username = none → (applyUserUpdate u r).username = r.username)
        ∧ (u.email = none → (applyUserUpdate u r).email = r.email)
        ∧ (u.full_name = none → (applyUserUpdate u r).full_name = r.full_name)
        ∧ (u.is_active = none → (applyUserUpdate u r).is_active = r.is_active)
        ∧ (applyUserUpdate u r).id = r.id
        ∧ (applyUserUpdate u r).created_at = r.created_at
        ∧ (applyUserUpdate u r).updated_at = r.updated_at)
    ∧ (∀ (r : PriceAlert) (u : PriceAlertUpdate),
        (u.alert_type = none →
          (applyPriceAlertUpdate u r).alert_type = r.alert_type)
        ∧ (u.target_price = none →
          (applyPriceAlertUpdate u r).target_price = r.target_price)
        ∧ (u.target_percentage = none →
          (applyPriceAlertUpdate u r).target_percentage = r.target_percentage)
        ∧ (u.status = none → (applyPriceAlertUpdate u r).status = r.status)
        ∧ (u.message = none → (applyPriceAlertUpdate u r).message = r.message)
        ∧ (applyPriceAlertUpdate u r).id = r.id
        ∧ (applyPriceAlertUpdate u r).user_id = r.user_id
        ∧ (applyPriceAlertUpdate u r).stock_id = r.stock_id
        ∧ (applyPriceAlertUpdate u r).triggered_at = r.triggered_at
        ∧ (applyPriceAlertUpdate u r).triggered_price = r.triggered_price
        ∧ (applyPriceAlertUpdate u r).created_at = r.created_at
        ∧ (applyPriceAlertUpdate u r).updated_at = r.updated_at) := by
  refine ⟨fun r => rfl, fun r => rfl, fun r => rfl, fun r => rfl,
          fun r => rfl, ?_, ?_⟩
  · intro r u
    refine ⟨?_, ?_, ?_, ?_, rfl, rfl, rfl⟩ <;>
      intro h <;> simp [applyUserUpdate, h]
  · intro r u
    refine ⟨?_, ?_, ?_, ?_, ?_, rfl, rfl, rfl, rfl, rfl, rfl, rfl⟩ <;>
      intro h <;> simp [applyPriceAlertUpdate, h]

/-- C4, witness: the all-absent update applied to a concrete user is the
identity, and the absent email field of an update leaves the stored email
unchanged. -/
theorem C4_witness :
    applyUserUpdate emptyUserUpdate sampleUser = sampleUser
    ∧ (applyUserUpdate ⟨none, none, none, some false⟩ sampleUser).email
      = sampleUser.email :=
  ⟨C4_update_frame.1 sampleUser,
   (C4_update_frame.2.2.2.2.2.1 sampleUser ⟨none, none, none, some false⟩).2.1
     rfl⟩

/-- C5: for every Decimal column of every persistent entity, storing a
value expressible within the column's declared decimal-place count and
retrieving it preserves the exact rational value and yields exactly the
declared scale; `PortfolioHolding.quantity` and `Transaction.quantity`
are declared with 8 decimal places and every declared count is 2, 4
or 8.  Exactness over ℚ of the integer-mantissa model is the fixed-point
(not floating-point) semantics. -/
theorem C5_decimal_roundtrip :
    (∀ t ∈ decimalPlaces, ∀ x : Decimal, x.scale ≤ t.2.2 →
        (storeDecimal t.2.2 x).scale = t.2.2
        ∧ (storeDecimal t.2.2 x).val = x.val)
    ∧ ("PortfolioHolding", FName.quantity, 8) ∈ decimalPlaces
    ∧ ("Transaction", FName.quantity, 8) ∈ decimalPlaces
    ∧ ∀ t ∈ decimalPlaces, t.2.2 = 2 ∨ t.2.2 = 4 ∨ t.2.2 = 8 := by
  refine ⟨?_, by decide, by decide, by decide⟩
  intro t _ x hx
  unfold storeDecimal
  rw [if_pos hx]
  refine ⟨rfl, ?_⟩
  simp only [Decimal.val]
  have h1 : (10:ℚ) ^ t.2.2 = (10:ℚ) ^ (t.2.2 - x.scale) * (10:ℚ) ^ x.scale := by
    rw [← pow_add]
    congr 1
    omega
  push_cast
  rw [div_eq_div_iff (by positivity) (by positivity), h1]
  ring

/-- C5, witness: the `Transaction.quantity` column (8 declared places)
round-trips a value given with 4 decimal places exactly. -/
theorem C5_witness :
    (storeDecimal 8 ⟨123456, 4⟩).scale = 8
    ∧ (storeDecimal 8 ⟨123456, 4⟩).val = Decimal.val ⟨123456, 4⟩ :=
  C5_decimal_roundtrip.1 ("Transaction", FName.quantity, 8) (by decide)
    ⟨123456, 4⟩ (by decide)

end Models
